import Mathlib

/-!
Shallow embedding of the statezero-vue-bolt-starter repository.

The repository consists of three artifacts:
  * `statezero.config.js` — a static configuration object (default export)
    built from a single `BASE_URL` constant;
  * `model-registry.js` — a placeholder `getModelClass` function that
    unconditionally throws;
  * `src/main.ts` — the bootstrap module body: a straight-line sequence of
    initialization calls into the external `@statezero/core` library,
    followed by mounting the Vue application.

Pure values are embedded as Lean values; the throwing registry function is
embedded as a function into `Except String`; the bootstrap module body is
embedded as the list of calls it performs, in source order.
-/

namespace StateZeroStarter

/-! ### statezero.config.js -/

/-- `export const BASE_URL = "http://127.0.0.1:8000";` -/
def BASE_URL : String := "http://127.0.0.1:8000"

/-- The `clientOptions` object under `events.pusher` in
`statezero.config.js`.  `null` fields are embedded as `Option.none`. -/
structure ClientOptions where
  appKey : Option String
  cluster : Option String
  forceTLS : Bool
  authEndpoint : String
deriving DecidableEq, Repr

/-- The `pusher` object under `events` in `statezero.config.js`. -/
structure PusherConfig where
  clientOptions : ClientOptions
deriving DecidableEq, Repr

/-- The `events` object of a backend configuration. -/
structure EventsConfig where
  type : String
  pusher : PusherConfig
deriving DecidableEq, Repr

/-- One backend configuration object (the shape of
`backendConfigs.default` in `statezero.config.js`). -/
structure BackendConfig where
  API_URL : String
  GENERATED_TYPES_DIR : String
  fileRootURL : String
  fileUploadMode : String
  BACKEND_TZ : String
  events : EventsConfig
deriving DecidableEq, Repr

/-- The shape of the default export of `statezero.config.js`:
`backendConfigs` is a JS object mapping backend names to backend
configurations, embedded as an association list of key/value pairs. -/
structure StateZeroConfig where
  backendConfigs : List (String × BackendConfig)
deriving DecidableEq, Repr

/-- The backend configuration stored under the `"default"` key in
`statezero.config.js`, transcribed field for field; the template literals
are embedded as string concatenations with `BASE_URL`. -/
def defaultBackend : BackendConfig :=
  { API_URL := BASE_URL ++ "/statezero"
    GENERATED_TYPES_DIR := "./src/models/"
    fileRootURL := BASE_URL
    fileUploadMode := "server"
    BACKEND_TZ := "UTC"
    events :=
      { type := "pusher"
        pusher :=
          { clientOptions :=
              { appKey := none
                cluster := none
                forceTLS := true
                authEndpoint := BASE_URL ++ "/statezero/events/auth/" } } } }

/-- The default export of `statezero.config.js`. -/
def statezeroConfig : StateZeroConfig :=
  { backendConfigs := [("default", defaultBackend)] }

/-! ### model-registry.js -/

/-- The message prefix of the template literal inside `getModelClass`. -/
def registryErrMsgHead : String :=
  "Model registry not initialized. Please run your StateZero model sync command to generate the model registry. Attempted to load model: "

/-- `getModelClass` from `model-registry.js`: the placeholder registry
function.  The JS function throws an `Error` built from a template literal
interpolating `modelName`; throwing is embedded as `Except.error` carrying
the error message, so the function never produces an `Except.ok`. -/
def getModelClass (modelName : String) : Except String Unit :=
  Except.error (registryErrMsgHead ++ modelName)

/-- `s` contains `sub` as a contiguous substring. -/
def strContains (s sub : String) : Prop :=
  ∃ pre post : String, s = pre ++ sub ++ post

/-! ### src/main.ts -/

/-- The three Vue adaptors imported from `@statezero/core/vue`.  Their
implementations live in the external library; only their identities matter
to this repository. -/
inductive VueAdaptor where
  | ModelAdaptor
  | QuerySetAdaptor
  | MetricAdaptor
deriving DecidableEq, Repr

/-- One call performed by the module body of `src/main.ts`, with the
arguments the source passes. -/
inductive BootCall where
  | setConfig (cfg : StateZeroConfig)
  | registerModelGetter (getter : String → Except String Unit)
  | setAdapters (a b c : VueAdaptor)
  | initEventHandler
  | syncManagerInitialize
  | mountApp (rootComponent selector : String)

/-- The kind of a bootstrap call, forgetting its arguments. -/
inductive BootKind where
  | setConfig
  | registerModelGetter
  | setAdapters
  | initEventHandler
  | syncManagerInitialize
  | mountApp
deriving DecidableEq, Repr

/-- Forget the arguments of a bootstrap call. -/
def BootCall.kind : BootCall → BootKind
  | .setConfig _ => .setConfig
  | .registerModelGetter _ => .registerModelGetter
  | .setAdapters _ _ _ => .setAdapters
  | .initEventHandler => .initEventHandler
  | .syncManagerInitialize => .syncManagerInitialize
  | .mountApp _ _ => .mountApp

/-- The module body of `src/main.ts`, embedded as the sequence of calls it
executes, in source order:
`configInstance.setConfig(config)`,
`configInstance.registerModelGetter(getModelClass)`,
`setAdapters(ModelAdaptor, QuerySetAdaptor, MetricAdaptor)`,
`initEventHandler()`, `syncManager.initialize()`,
`createApp(App).mount('#app')`. -/
def mainBootstrap : List BootCall :=
  [ BootCall.setConfig statezeroConfig
  , BootCall.registerModelGetter getModelClass
  , BootCall.setAdapters VueAdaptor.ModelAdaptor VueAdaptor.QuerySetAdaptor
      VueAdaptor.MetricAdaptor
  , BootCall.initEventHandler
  , BootCall.syncManagerInitialize
  , BootCall.mountApp "App" "#app" ]

/-- The argument of a call when it is a `setConfig` call. -/
def BootCall.setConfigArg : BootCall → Option StateZeroConfig
  | .setConfig cfg => some cfg
  | _ => none

/-- The argument of a call when it is a `registerModelGetter` call. -/
def BootCall.getterArg : BootCall → Option (String → Except String Unit)
  | .registerModelGetter g => some g
  | _ => none

/-- The arguments of a call when it is a `setAdapters` call. -/
def BootCall.adaptersArg : BootCall → Option (VueAdaptor × VueAdaptor × VueAdaptor)
  | .setAdapters a b c => some (a, b, c)
  | _ => none

/-- The argument of the first `setConfig` call in a trace. -/
def firstSetConfigArg (t : List BootCall) : Option StateZeroConfig :=
  t.findSome? BootCall.setConfigArg

/-- The argument of the first `registerModelGetter` call in a trace. -/
def firstGetterArg (t : List BootCall) : Option (String → Except String Unit) :=
  t.findSome? BootCall.getterArg

/-- The arguments of the first `setAdapters` call in a trace. -/
def firstAdaptersArg (t : List BootCall) : Option (VueAdaptor × VueAdaptor × VueAdaptor) :=
  t.findSome? BootCall.adaptersArg

/-- The list of call kinds of the bootstrap trace. -/
def bootKinds : List BootKind := mainBootstrap.map BootCall.kind

/-! ### Claims -/

/-- Claim C1: for every model name argument, `getModelClass` never returns
normally (never produces an `Except.ok`), and the error it raises has a
message containing that model name as a substring. -/
theorem getModelClass_always_errors (modelName : String) :
    (∀ v : Unit, getModelClass modelName ≠ Except.ok v) ∧
    ∃ msg : String, getModelClass modelName = Except.error msg ∧
      strContains msg modelName :=
  ⟨fun _ h => by simp [getModelClass] at h,
   registryErrMsgHead ++ modelName, rfl,
   registryErrMsgHead, "", by simp⟩

/-- Claim C2: the module body of `src/main.ts` is the straight-line call
sequence `setConfig`, `registerModelGetter`, `setAdapters`,
`initEventHandler`, `syncManager.initialize`, `mountApp`, each kind of
call occurring exactly once, and both singleton initializations occur
strictly before the application mount. -/
theorem bootstrap_sequence :
    bootKinds = [BootKind.setConfig, BootKind.registerModelGetter,
      BootKind.setAdapters, BootKind.initEventHandler,
      BootKind.syncManagerInitialize, BootKind.mountApp] ∧
    bootKinds.count BootKind.setConfig = 1 ∧
    bootKinds.count BootKind.registerModelGetter = 1 ∧
    bootKinds.count BootKind.setAdapters = 1 ∧
    bootKinds.count BootKind.initEventHandler = 1 ∧
    bootKinds.count BootKind.syncManagerInitialize = 1 ∧
    bootKinds.count BootKind.mountApp = 1 ∧
    bootKinds.indexOf BootKind.initEventHandler < bootKinds.indexOf BootKind.mountApp ∧
    bootKinds.indexOf BootKind.syncManagerInitialize < bootKinds.indexOf BootKind.mountApp := by
  decide

/-- Claim C3: the configuration value handed to `configInstance.setConfig`
by the bootstrap is the default export of `statezero.config.js` itself,
unmodified, and `setConfig` is called exactly once. -/
theorem setConfig_passes_export_verbatim :
    firstSetConfigArg mainBootstrap = some statezeroConfig ∧
    bootKinds.count BootKind.setConfig = 1 :=
  ⟨rfl, by decide⟩

/-- Claim C4: under its single backend configuration (the `"default"`
key), the exported configuration carries `API_URL`,
`GENERATED_TYPES_DIR`, `fileRootURL`, `fileUploadMode`, `BACKEND_TZ` and
an `events` section, with the values transcribed from
`statezero.config.js`. -/
theorem config_contains_contract_fields :
    statezeroConfig.backendConfigs = [("default", defaultBackend)] ∧
    defaultBackend.API_URL = "http://127.0.0.1:8000/statezero" ∧
    defaultBackend.GENERATED_TYPES_DIR = "./src/models/" ∧
    defaultBackend.fileRootURL = "http://127.0.0.1:8000" ∧
    defaultBackend.fileUploadMode = "server" ∧
    defaultBackend.BACKEND_TZ = "UTC" ∧
    defaultBackend.events.type = "pusher" := by
  decide

/-- Claim C5: the `events` section selects the `"pusher"` transport, and
its `clientOptions` carry the `appKey`, `cluster`, `forceTLS` and
`authEndpoint` fields, with `forceTLS` set to `true`. -/
theorem events_select_pusher_transport :
    defaultBackend.events.type = "pusher" ∧
    defaultBackend.events.pusher.clientOptions.forceTLS = true ∧
    defaultBackend.events.pusher.clientOptions.appKey = none ∧
    defaultBackend.events.pusher.clientOptions.cluster = none ∧
    defaultBackend.events.pusher.clientOptions.authEndpoint =
      "http://127.0.0.1:8000/statezero/events/auth/" := by
  decide

/-- Claim C6: the callback the bootstrap registers with
`configInstance.registerModelGetter` is exactly the `getModelClass`
function exported by the model registry module, and that registration
happens exactly once. -/
theorem registered_getter_is_getModelClass :
    firstGetterArg mainBootstrap = some getModelClass ∧
    bootKinds.count BootKind.registerModelGetter = 1 :=
  ⟨rfl, by decide⟩

/-- Claim C7: the adaptors the bootstrap passes to `setAdapters` are
exactly the three Vue adaptors from `@statezero/core/vue`, in the order
`ModelAdaptor`, `QuerySetAdaptor`, `MetricAdaptor`, and `setAdapters` is
called exactly once. -/
theorem adapters_are_the_three_vue_adaptors :
    firstAdaptersArg mainBootstrap =
      some (VueAdaptor.ModelAdaptor, VueAdaptor.QuerySetAdaptor, VueAdaptor.MetricAdaptor) ∧
    bootKinds.count BootKind.setAdapters = 1 :=
  ⟨rfl, by decide⟩

/-- Claim C8: for every model name, the message of the error raised by
`getModelClass` is exactly the fixed sentence followed by the model name
itself. -/
theorem getModelClass_message_exact (modelName : String) :
    getModelClass modelName = Except.error
      ("Model registry not initialized. Please run your StateZero model sync command to generate the model registry. Attempted to load model: "
        ++ modelName) :=
  rfl

/-- Claim C9: every URL in the configuration derives from `BASE_URL`:
`API_URL = BASE_URL ++ "/statezero"`, `fileRootURL = BASE_URL`, and
`authEndpoint = BASE_URL ++ "/statezero/events/auth/"`, which also equals
`API_URL ++ "/events/auth/"`. -/
theorem urls_derive_from_BASE_URL :
    defaultBackend.API_URL = BASE_URL ++ "/statezero" ∧
    defaultBackend.fileRootURL = BASE_URL ∧
    defaultBackend.events.pusher.clientOptions.authEndpoint =
      BASE_URL ++ "/statezero/events/auth/" ∧
    defaultBackend.events.pusher.clientOptions.authEndpoint =
      defaultBackend.API_URL ++ "/events/auth/" := by
  decide

/-- Claim C10: the shipped pusher credentials are unset: `appKey` and
`cluster` are both `null`. -/
theorem pusher_credentials_unset :
    defaultBackend.events.pusher.clientOptions.appKey = none ∧
    defaultBackend.events.pusher.clientOptions.cluster = none := by
  decide

end StateZeroStarter
